import Mathlib

/-!
# Verification of the coreax coreset-construction core

A shallow embedding of the coreset construction engine described in the
repository's specification (`spec.md`) and exercised by the in-repo unit
tests (`src/tests/unit/test_coresubset.py`).  The Python implementation
package (`coreax/coresubset.py`, `coreax/reduction.py`, ...) is not part of
the source tree here; only its unit tests and example scripts are.  The
definitions below are therefore modelled from the specification, with the
observable behaviour (selected indices, penalty updates, error classes and
exact error messages) pinned wherever the unit tests assert it.

Kernel values and data coordinates are rationals; the similarity-penalty
vector lives in the rationals extended with `+∞` (the value written by the
uniqueness rule), and greedy scores live in `Option ℚ` with `none`
standing for `-∞` (the score of a candidate whose penalty is infinite).
-/

set_option autoImplicit false

/-- Rationals extended with `+∞`: the value type of the similarity-penalty
vector in kernel herding.  `inf` models the IEEE `+infinity` that the
uniqueness rule writes into the penalty entry of a selected index. -/
inductive ExtQ where
  | fin : ℚ → ExtQ
  | inf : ExtQ
deriving DecidableEq, Repr

/-- Add a finite kernel value to a penalty entry; `+∞` absorbs. -/
def ExtQ.addQ : ExtQ → ℚ → ExtQ
  | .inf, _ => .inf
  | .fin q, c => .fin (q + c)

/-- Modelled from the spec: the greedy score of candidate `i` at step `t`
is `r[i] - p[i] / (t+1)` (spec §4.2 step 1); a candidate with infinite
penalty scores `-∞`, represented as `none`. -/
def ExtQ.score (t : Nat) (r : ℚ) : ExtQ → Option ℚ
  | .inf => none
  | .fin q => some (r - q / ((t : ℚ) + 1))

/-- Strict order on `Option ℚ` with `none` as `-∞`. -/
def optLt : Option ℚ → Option ℚ → Bool
  | none, none => false
  | none, some _ => true
  | some _, none => false
  | some x, some y => decide (x < y)

/-- Fold computing the first index (and value) of the maximum of a list of
extended scores; the accumulator holds the best (index, value) so far and
is replaced only on strict increase, so ties keep the lowest index. -/
def argmaxAux : List (Option ℚ) → Nat → Nat × Option ℚ → Nat × Option ℚ
  | [], _, best => best
  | a :: rest, i, best =>
      argmaxAux rest (i + 1) (if optLt best.2 a then (i, a) else best)

/-- First index attaining the maximum of a list of extended scores
(`0` on the empty list), together with the maximal value. -/
def argmaxPair : List (Option ℚ) → Nat × Option ℚ
  | [] => (0, none)
  | a :: rest => argmaxAux rest 1 (0, a)

/-- Modelled from the spec: `argmax` over candidate scores, ties broken by
lowest index (spec §4.2 step 2). -/
def argmaxOpt (l : List (Option ℚ)) : Nat :=
  (argmaxPair l).1

/-- Fold computing the first index and value of the maximum of a plain
rational vector. -/
def argmaxQAux : List ℚ → Nat → Nat × ℚ → Nat × ℚ
  | [], _, best => best
  | a :: rest, i, best =>
      argmaxQAux rest (i + 1) (if decide (best.2 < a) then (i, a) else best)

/-- First index attaining the maximum of a rational vector (`0` on the
empty list): the "arg-max of the Gramian row-mean" of spec §8. -/
def argmaxQ : List ℚ → Nat
  | [] => 0
  | a :: rest => (argmaxQAux rest 1 (0, a)).1

/-- Modelled from the spec: candidate selection of one greedy kernel
herding step — score every candidate as `r[i] - p[i]/(t+1)` and take the
arg-max, ties to the lowest index (spec §4.2 steps 1–2). -/
def greedySelect (t : Nat) (r : List ℚ) (p : List ExtQ) : Nat :=
  argmaxOpt (List.zipWith (fun ri pi => ExtQ.score t ri pi) r p)

/-- Modelled from the spec: one iteration of KernelHerding's greedy loop
(the `_greedy_body` exercised by `TestKernelHerding.test_greedy_body`).
At step `t` it selects the arg-max of `r[i] - p[i]/(t+1)`, writes the
selected index at position `t` of the coreset-index vector, adds
`k(x_selected, x_j)` to every penalty entry `j`, and, when uniqueness is
requested, sets the selected entry's penalty to `+∞` (spec §4.2). -/
def greedy_body (t : Nat) (indices : List Nat) (p : List ExtQ)
    (k : Nat → Nat → ℚ) (r : List ℚ) (unique : Bool) : List Nat × List ExtQ :=
  let sel := greedySelect t r p
  let p1 := p.enum.map (fun ji => ji.2.addQ (k sel ji.1))
  let p2 := if unique then p1.set sel .inf else p1
  (indices.set t sel, p2)

/-- Modelled from the spec: the full greedy herding loop — a fold of
`greedy_body` over step indices `0, …, m-1`, starting from a zero-filled
index vector of length `m` and a zero similarity-penalty vector
(spec §4.2, §9 "explicit fold over step index"). -/
def herdingFold (m n : Nat) (k : Nat → Nat → ℚ) (r : List ℚ)
    (unique : Bool) : List Nat × List ExtQ :=
  (List.range m).foldl (fun st t => greedy_body t st.1 st.2 k r unique)
    (List.replicate m 0, List.replicate n (ExtQ.fin 0))

/-- The `m` coreset indices produced by kernel herding from a Gramian
row-mean `r` and pairwise kernel `k`. -/
def herdingIndices (m : Nat) (k : Nat → Nat → ℚ) (r : List ℚ)
    (unique : Bool) : List Nat :=
  (herdingFold m r.length k r unique).1

lemma optLt_irrefl (x : Option ℚ) : optLt x x = false := by
  cases x <;> simp [optLt]

lemma optLt_trans {x y z : Option ℚ} (h1 : optLt x y = true)
    (h2 : optLt y z = true) : optLt x z = true := by
  cases x <;> cases y <;> cases z <;> simp_all [optLt] <;> linarith

lemma optLt_lt_of_nlt {x y z : Option ℚ} (h1 : optLt x y = true)
    (h2 : optLt z y = false) : optLt x z = true := by
  cases x <;> cases y <;> cases z <;> simp_all [optLt] <;> linarith

lemma argmaxAux_spec (rest : List (Option ℚ)) :
    ∀ (i : Nat) (b : Nat × Option ℚ),
    (argmaxAux rest i b = b ∨ ∃ j, ∃ h : j < rest.length,
        argmaxAux rest i b = (i + j, rest.get ⟨j, h⟩))
    ∧ optLt (argmaxAux rest i b).2 b.2 = false
    ∧ ∀ j (h : j < rest.length),
        optLt (argmaxAux rest i b).2 (rest.get ⟨j, h⟩) = false := by
  induction rest with
  | nil =>
      intro i b
      refine ⟨Or.inl rfl, ?_, ?_⟩
      · simp [argmaxAux, optLt_irrefl]
      · intro j h; simp at h
  | cons a rest ih =>
      intro i b
      by_cases hba : optLt b.2 a = true
      · have hunf : argmaxAux (a :: rest) i b = argmaxAux rest (i + 1) (i, a) := by
          simp [argmaxAux, hba]
        obtain ⟨hidx, hb, hall⟩ := ih (i + 1) (i, a)
        refine ⟨?_, ?_, ?_⟩
        · rcases hidx with h | ⟨j, hj, hjeq⟩
          · exact Or.inr ⟨0, by simp, by rw [hunf, h]; simp⟩
          · refine Or.inr ⟨j + 1, by simpa using hj, ?_⟩
            rw [hunf, hjeq]
            have : i + 1 + j = i + (j + 1) := by omega
            simp [this]
        · rw [hunf]
          by_cases hrb : optLt (argmaxAux rest (i + 1) (i, a)).2 b.2 = true
          · have := optLt_trans hrb hba
            rw [this] at hb; exact absurd hb (by simp)
          · simpa using hrb
        · intro j h
          rw [hunf]
          match j with
          | 0 => simpa using hb
          | j + 1 => simpa using hall j (by simpa using h)
      · have hba' : optLt b.2 a = false := by simpa using hba
        have hunf : argmaxAux (a :: rest) i b = argmaxAux rest (i + 1) b := by
          simp [argmaxAux, hba']
        obtain ⟨hidx, hb, hall⟩ := ih (i + 1) b
        refine ⟨?_, ?_, ?_⟩
        · rcases hidx with h | ⟨j, hj, hjeq⟩
          · exact Or.inl (by rw [hunf, h])
          · refine Or.inr ⟨j + 1, by simpa using hj, ?_⟩
            rw [hunf, hjeq]
            have : i + 1 + j = i + (j + 1) := by omega
            simp [this]
        · rw [hunf]; exact hb
        · intro j h
          rw [hunf]
          match j with
          | 0 =>
              by_cases hra : optLt (argmaxAux rest (i + 1) b).2 a = true
              · have := optLt_lt_of_nlt hra hba'
                rw [this] at hb
                exact absurd hb (by simp)
              · simpa using hra
          | j + 1 => simpa using hall j (by simpa using h)

lemma argmaxOpt_lt_length (l : List (Option ℚ)) (h : l ≠ []) :
    argmaxOpt l < l.length := by
  match l with
  | [] => exact absurd rfl h
  | a :: rest =>
      obtain ⟨hidx, _, _⟩ := argmaxAux_spec rest 1 (0, a)
      simp only [argmaxOpt, argmaxPair]
      rcases hidx with heq | ⟨j, hj, heq⟩
      · rw [heq]; simp
      · rw [heq]; simp only [List.length_cons]; omega

lemma argmaxPair_get (l : List (Option ℚ)) (h : l ≠ []) :
    l.get? (argmaxOpt l) = some (argmaxPair l).2 := by
  match l with
  | [] => exact absurd rfl h
  | a :: rest =>
      obtain ⟨hidx, _, _⟩ := argmaxAux_spec rest 1 (0, a)
      simp only [argmaxOpt, argmaxPair]
      rcases hidx with heq | ⟨j, hj, heq⟩
      · rw [heq]; simp
      · rw [heq]
        have : 1 + j = j + 1 := by omega
        simp [this, List.get?_eq_get hj]

lemma argmaxPair_max (l : List (Option ℚ)) :
    ∀ j (h : j < l.length), optLt (argmaxPair l).2 (l.get ⟨j, h⟩) = false := by
  match l with
  | [] => intro j h; simp at h
  | a :: rest =>
      obtain ⟨_, hb, hall⟩ := argmaxAux_spec rest 1 (0, a)
      intro j h
      simp only [argmaxPair]
      match j with
      | 0 => simpa using hb
      | j + 1 => simpa using hall j (by simpa using h)

lemma argmaxOpt_ne_of_none (l : List (Option ℚ)) (i j : Nat)
    (hi : i < l.length) (hj : j < l.length)
    (hni : l.get ⟨i, hi⟩ = none) (hsj : l.get ⟨j, hj⟩ ≠ none) :
    argmaxOpt l ≠ i := by
  have hne : l ≠ [] := by
    intro hl; rw [hl] at hi; simp at hi
  intro hcontra
  have hval := argmaxPair_get l hne
  rw [hcontra, List.get?_eq_get hi, hni] at hval
  obtain ⟨q, hq⟩ := Option.ne_none_iff_exists'.mp hsj
  have hmax := argmaxPair_max l j hj
  rw [hq, ← Option.some_inj.mp hval] at hmax
  simp [optLt] at hmax

lemma argmaxAux_map_some (rest : List ℚ) :
    ∀ (i : Nat) (b : Nat × ℚ),
    argmaxAux (rest.map some) i (b.1, some b.2)
      = ((argmaxQAux rest i b).1, some (argmaxQAux rest i b).2) := by
  induction rest with
  | nil => intro i b; simp [argmaxAux, argmaxQAux]
  | cons a rest ih =>
      intro i b
      by_cases hba : b.2 < a
      · have h1 : optLt (some b.2) (some a) = true := by simp [optLt, hba]
        have h2 : decide (b.2 < a) = true := by simp [hba]
        simp only [List.map_cons, argmaxAux, argmaxQAux, h1, h2, if_true]
        exact ih (i + 1) (i, a)
      · have h1 : optLt (some b.2) (some a) = false := by simp [optLt, hba]
        have h2 : decide (b.2 < a) = false := by simp [hba]
        simp only [List.map_cons, argmaxAux, argmaxQAux, h1, h2, if_false]
        exact ih (i + 1) b

lemma argmaxOpt_map_some (r : List ℚ) : argmaxOpt (r.map some) = argmaxQ r := by
  match r with
  | [] => rfl
  | a :: rest =>
      simp only [argmaxOpt, argmaxPair, argmaxQ]
      simp only [List.map_cons]
      rw [show ((0 : Nat), some a) = ((0, a).1, some ((0, a) : Nat × ℚ).2) from rfl,
        argmaxAux_map_some rest 1 (0, a)]

/-- With a zero-initialised penalty vector, every candidate's score
collapses to its raw Gramian row-mean entry. -/
lemma zipWith_score_zero (t : Nat) (r : List ℚ) :
    List.zipWith (fun ri pi => ExtQ.score t ri pi) r
        (List.replicate r.length (ExtQ.fin 0)) = r.map some := by
  induction r with
  | nil => rfl
  | cons a rest ih =>
      simp only [List.length_cons, List.replicate_succ, List.zipWith_cons_cons,
        List.map_cons, ih]
      simp [ExtQ.score]

/-- The pairwise kernel of the repository's greedy-body unit test: the
mocked Gramian has every row equal to `[0.5, 1, 1]`, so the vectorised
kernel call for selected index `s` returns the constant column
`[0.5, 1, 1][s]`. -/
def mockK : Nat → Nat → ℚ := fun sel _j => [(1 : ℚ)/2, 1, 1].getD sel 0

/-- The Gramian row-mean of the repository's greedy-body unit test. -/
def mockRowMean : List ℚ := [3/5, 3/4, 11/20]

lemma greedySelect_mock1 :
    greedySelect 0 mockRowMean (List.replicate 3 (ExtQ.fin 0)) = 1 := by
  norm_num [greedySelect, mockRowMean, ExtQ.score, argmaxOpt, argmaxPair,
    argmaxAux, optLt, List.replicate_succ, List.zipWith_cons_cons]

lemma greedySelect_mock2 :
    greedySelect 1 mockRowMean [ExtQ.fin (59/50), ExtQ.inf, ExtQ.fin 1] = 2 := by
  norm_num [greedySelect, mockRowMean, ExtQ.score, argmaxOpt, argmaxPair,
    argmaxAux, optLt, List.zipWith_cons_cons]

lemma argmaxQ_mock : argmaxQ mockRowMean = 1 := by
  norm_num [argmaxQ, mockRowMean, argmaxQAux]

/-- Claim C1: at a greedy step over finite penalties each candidate `i` is
scored as `r[i] - p[i]/(t+1)` and the arg-max is selected; with a
zero-initialised penalty vector the selection is exactly the arg-max of
the Gramian row-mean `r`, and for `r = [0.6, 0.75, 0.55]` the first
selection is index `1`. -/
theorem herding_first_selection_argmax (t : Nat) (r q : List ℚ)
    (indices : List Nat) (k : Nat → Nat → ℚ) (unique : Bool) :
    greedySelect t r (q.map ExtQ.fin)
        = argmaxOpt (List.zipWith (fun ri qi => some (ri - qi / ((t : ℚ) + 1))) r q)
    ∧ greedySelect t r (List.replicate r.length (ExtQ.fin 0)) = argmaxQ r
    ∧ (greedy_body t indices (List.replicate r.length (ExtQ.fin 0)) k r unique).1
        = indices.set t (argmaxQ r)
    ∧ greedySelect 0 mockRowMean (List.replicate 3 (ExtQ.fin 0)) = 1
    ∧ argmaxQ mockRowMean = 1 := by
  have hzero : greedySelect t r (List.replicate r.length (ExtQ.fin 0)) = argmaxQ r := by
    rw [greedySelect, zipWith_score_zero, argmaxOpt_map_some]
  refine ⟨?_, hzero, ?_, greedySelect_mock1, argmaxQ_mock⟩
  · simp [greedySelect, List.zipWith_map_right, ExtQ.score]
  · simp only [greedy_body, hzero]

/-- Claim C2: with `unique = true` a greedy step sets the selected index's
penalty entry to `+∞`; an infinite penalty entry survives every later
penalty update, and the arg-max selection never picks an index whose
penalty is infinite while some candidate's penalty is finite; with
`unique = false` the selected entry's penalty stays finite (it merely
accumulates the kernel value), allowing repeats. -/
theorem herding_unique_infinite_penalty :
    (∀ (t : Nat) (indices : List Nat) (p : List ExtQ) (k : Nat → Nat → ℚ)
        (r : List ℚ), r ≠ [] → r.length ≤ p.length →
        ((greedy_body t indices p k r true).2).get? (greedySelect t r p)
          = some ExtQ.inf)
    ∧ (∀ (t : Nat) (indices : List Nat) (p : List ExtQ) (k : Nat → Nat → ℚ)
        (r : List ℚ) (unique : Bool) (i : Nat) (hip : i < p.length),
        p.get ⟨i, hip⟩ = ExtQ.inf →
        ((greedy_body t indices p k r unique).2).get? i = some ExtQ.inf)
    ∧ (∀ (t : Nat) (r : List ℚ) (p : List ExtQ) (i : Nat)
        (hir : i < r.length) (hip : i < p.length),
        p.get ⟨i, hip⟩ = ExtQ.inf →
        (∃ j, ∃ hjr : j < r.length, ∃ hjp : j < p.length,
            p.get ⟨j, hjp⟩ ≠ ExtQ.inf) →
        greedySelect t r p ≠ i)
    ∧ (∀ (t : Nat) (indices : List Nat) (p : List ExtQ) (k : Nat → Nat → ℚ)
        (r : List ℚ) (q : ℚ),
        p.get? (greedySelect t r p) = some (ExtQ.fin q) →
        ((greedy_body t indices p k r false).2).get? (greedySelect t r p)
          = some (ExtQ.fin (q + k (greedySelect t r p) (greedySelect t r p)))) := by
  refine ⟨?_, ?_, ?_, ?_⟩
  · intro t indices p k r hr hrp
    have hne : List.zipWith (fun ri pi => ExtQ.score t ri pi) r p ≠ [] := by
      have hrl := List.length_pos.mpr hr
      intro hcon
      have : (List.zipWith (fun ri pi => ExtQ.score t ri pi) r p).length = 0 := by
        rw [hcon]; rfl
      rw [List.length_zipWith] at this
      omega
    have hsel : greedySelect t r p < p.length := by
      have := argmaxOpt_lt_length _ hne
      rw [List.length_zipWith] at this
      unfold greedySelect
      omega
    simp only [greedy_body, if_true]
    rw [List.get?_set_eq_of_lt]
    simp only [List.length_map, List.enum_length]
    exact hsel
  · intro t indices p k r unique i hip hinf
    have hp1 : ((p.enum.map (fun ji =>
        ji.2.addQ (k (greedySelect t r p) ji.1))).get? i) = some ExtQ.inf := by
      rw [List.get?_map, List.get?_enum, List.get?_eq_get hip, hinf]
      rfl
    simp only [greedy_body]
    cases unique with
    | false => simpa using hp1
    | true =>
        by_cases hi : i = greedySelect t r p
        · subst hi
          rw [if_pos rfl, List.get?_set_eq_of_lt]
          simp only [List.length_map, List.enum_length]
          exact hip
        · rw [if_pos rfl, List.get?_set_ne _ _ (fun h => hi h.symm)]
          exact hp1
  · intro t r p i hir hip hinf hex
    obtain ⟨j, hjr, hjp, hfin⟩ := hex
    have hlen : i < (List.zipWith (fun ri pi => ExtQ.score t ri pi) r p).length := by
      rw [List.length_zipWith]; omega
    have hlenj : j < (List.zipWith (fun ri pi => ExtQ.score t ri pi) r p).length := by
      rw [List.length_zipWith]; omega
    apply argmaxOpt_ne_of_none _ i j hlen hlenj
    · have hgi : p[i] = ExtQ.inf := by simpa using hinf
      simp only [List.get_eq_getElem, List.getElem_zipWith, hgi]
      rfl
    · have hgj : p[j] ≠ ExtQ.inf := by simpa using hfin
      simp only [List.get_eq_getElem, List.getElem_zipWith]
      cases hc : p[j] with
      | inf => exact absurd hc hgj
      | fin q => simp [ExtQ.score]
  · intro t indices p k r q hq
    simp only [greedy_body, Bool.false_eq_true, if_false]
    rw [List.get?_map, List.get?_enum, hq]
    rfl

/-- Concrete instantiation of the C2 theorem on the greedy-body unit
test's data: selecting index 1 with `unique = true` writes `+∞` into its
penalty entry; that entry stays infinite through the next update; the
next selection avoids index 1; and with `unique = false` the newly
selected index 2 keeps a finite penalty. -/
theorem herding_unique_infinite_penalty_witness :
    ((greedy_body 0 [0, 0] (List.replicate 3 (ExtQ.fin 0)) mockK mockRowMean
        true).2).get? (greedySelect 0 mockRowMean (List.replicate 3 (ExtQ.fin 0)))
      = some ExtQ.inf
    ∧ ((greedy_body 1 [1, 0] [ExtQ.fin (59/50), ExtQ.inf, ExtQ.fin 1] mockK
        mockRowMean false).2).get? 1 = some ExtQ.inf
    ∧ greedySelect 1 mockRowMean [ExtQ.fin (59/50), ExtQ.inf, ExtQ.fin 1] ≠ 1
    ∧ ((greedy_body 1 [1, 0] [ExtQ.fin (59/50), ExtQ.inf, ExtQ.fin 1] mockK
        mockRowMean false).2).get?
          (greedySelect 1 mockRowMean [ExtQ.fin (59/50), ExtQ.inf, ExtQ.fin 1])
      = some (ExtQ.fin (1 + mockK
          (greedySelect 1 mockRowMean [ExtQ.fin (59/50), ExtQ.inf, ExtQ.fin 1])
          (greedySelect 1 mockRowMean [ExtQ.fin (59/50), ExtQ.inf, ExtQ.fin 1]))) := by
  refine ⟨?_, ?_, ?_, ?_⟩
  · exact herding_unique_infinite_penalty.1 0 [0, 0]
      (List.replicate 3 (ExtQ.fin 0)) mockK mockRowMean (by decide) (by decide)
  · exact herding_unique_infinite_penalty.2.1 1 [1, 0]
      [ExtQ.fin (59/50), ExtQ.inf, ExtQ.fin 1] mockK mockRowMean false 1
      (by decide) (by decide)
  · exact herding_unique_infinite_penalty.2.2.1 1 mockRowMean
      [ExtQ.fin (59/50), ExtQ.inf, ExtQ.fin 1] 1 (by decide) (by decide)
      (by decide) ⟨2, by decide, by decide, by decide⟩
  · exact herding_unique_infinite_penalty.2.2.2 1 [1, 0]
      [ExtQ.fin (59/50), ExtQ.inf, ExtQ.fin 1] mockK mockRowMean 1
      (by rw [greedySelect_mock2]; rfl)

/-- A Python value as passed for the `unique` flag; only its truthiness is
ever inspected by the constructors. -/
inductive PyVal where
  | bool : Bool → PyVal
  | str : String → PyVal
  | int : ℤ → PyVal
deriving DecidableEq

/-- Python truthiness: `False`, the empty string and `0` are falsy,
everything else is truthy (spec §4.3: "any non-boolean truthy value ...
is treated as True"). -/
def PyVal.truthy : PyVal → Bool
  | .bool b => b
  | .str s => !s.isEmpty
  | .int z => decide (z ≠ 0)

/-- A Python `coreset_size` argument: either an integer or a
non-integer-typed (float) number. -/
inductive PySize where
  | int : ℤ → PySize
  | float : ℚ → PySize
deriving DecidableEq

/-- The natural-number size extracted from a validated size argument. -/
def PySize.toNatVal : PySize → Nat
  | .int z => z.toNat
  | .float _ => 0

/-- The two error classes raised by the coreset core: `AttributeError`
(missing capability, carrying the missing attribute's name) and
`ValueError` (invalid configuration, carrying the message). -/
inductive PyError where
  | attributeError : String → PyError
  | valueError : String → PyError
deriving DecidableEq

/-- The data argument of `fit`: either a dataset object exposing a
`pre_coreset_array` of feature vectors, or an arbitrary object without it
(e.g. a plain list), which triggers an `AttributeError` at first use. -/
inductive DataObj where
  | array : List (List ℚ) → DataObj
  | invalid : DataObj

/-- The reduction-strategy argument of `fit`: a `SizeReduce` carrying the
target coreset size, or an object without a `reduce` operation. -/
inductive StrategyObj where
  | sizeReduce : PySize → StrategyObj
  | invalid : StrategyObj

/-- Modelled from the spec: KernelHerding's coreset-size failure
behaviour (spec §4.2 edge cases), with the exact messages pinned by the
unit tests: size 0 → ValueError "coreset_size must be non-zero"; a
negative size → ValueError "coreset_size must be a positive integer"; a
non-integer (float-typed) size → the same positive-integer message. -/
def KernelHerding.sizeError : PySize → Option String
  | .int z =>
      if z = 0 then some "coreset_size must be non-zero"
      else if z < 0 then some "coreset_size must be a positive integer"
      else none
  | .float _ => some "coreset_size must be a positive integer"

/-- Modelled from the spec: RPCholesky's coreset-size failure behaviour
(spec §4.4), messages pinned by the unit tests: 0 → "coreset_size must be
non-zero"; negative → "coreset_size must not be negative"; float →
"coreset_size must be a positive integer". -/
def RPCholesky.sizeError : PySize → Option String
  | .int z =>
      if z = 0 then some "coreset_size must be non-zero"
      else if z < 0 then some "coreset_size must not be negative"
      else none
  | .float _ => some "coreset_size must be a positive integer"

/-- Modelled from the spec: SteinThinning's coreset-size failure
behaviour (spec §4.5), messages pinned by the unit tests: zero, negative
and float sizes all raise ValueError "coreset_size must be a positive
integer". -/
def SteinThinning.sizeError : PySize → Option String
  | .int z => if z ≤ 0 then some "coreset_size must be a positive integer" else none
  | .float _ => some "coreset_size must be a positive integer"

/-- Modelled from the spec: RandomSample's coreset-size failure behaviour
(spec §4.3): 0 is valid (empty coreset); negative and float sizes raise
ValueError "coreset_size must be a positive integer". -/
def RandomSample.sizeError : PySize → Option String
  | .int z => if z < 0 then some "coreset_size must be a positive integer" else none
  | .float _ => some "coreset_size must be a positive integer"

/-- The kernel capabilities KernelHerding needs: blockwise Gramian
row-mean computation and pairwise Gramian evaluation over a dataset. -/
structure KernelCap where
  rowMean : List (List ℚ) → List ℚ
  eval : List (List ℚ) → Nat → Nat → ℚ

/-- A KernelHerding constructor object: its kernel, weights-optimiser and
refine-method collaborators (each possibly lacking the required
operation, modelled as `none`) and the `unique` flag. -/
structure HerdObj where
  kernel : Option KernelCap
  weights_optimiser : Option (List (List ℚ) → List Nat → List ℚ)
  refine_method : Option (List Nat → List Nat)
  unique : PyVal

/-- Modelled from the spec: `KernelHerding.fit(original_data, strategy)`.
The strategy's `reduce` operation is invoked first (an object without it
raises AttributeError "reduce"); the data's `pre_coreset_array` is then
accessed (AttributeError on a non-dataset object); the kernel's
`gramian_row_mean` capability is needed next (AttributeError naming it
when absent, per the unit test's comment that fit first computes the
Gramian row-mean); the coreset size is then validated and the greedy
herding loop runs.  The weights optimiser and refine method are not
consulted at all during fit. -/
def KernelHerding.fit (obj : HerdObj) (data : DataObj) (strategy : StrategyObj) :
    Except PyError (List Nat) :=
  match strategy with
  | .invalid => .error (.attributeError "reduce")
  | .sizeReduce sz =>
    match data with
    | .invalid => .error (.attributeError "pre_coreset_array")
    | .array x =>
      match obj.kernel with
      | none => .error (.attributeError "gramian_row_mean")
      | some kern =>
        match KernelHerding.sizeError sz with
        | some msg => .error (.valueError msg)
        | none =>
            .ok (herdingIndices sz.toNatVal (kern.eval x) (kern.rowMean x)
              obj.unique.truthy)

/-- Modelled from the spec: `solve_weights` delegates to the configured
weights optimiser's `solve` operation; a collaborator without it raises
an AttributeError naming "solve" (spec §4.8, §7). -/
def HerdObj.solve_weights (obj : HerdObj) (x : List (List ℚ))
    (coreset : List Nat) : Except PyError (List ℚ) :=
  match obj.weights_optimiser with
  | none => .error (.attributeError "solve")
  | some f => .ok (f x coreset)

/-- Modelled from the spec: `refine` delegates to the configured refine
method's `refine` operation; a collaborator without it raises an
AttributeError naming "refine" (spec §4.7, §7). -/
def HerdObj.refineCoreset (obj : HerdObj) (coreset : List Nat) :
    Except PyError (List Nat) :=
  match obj.refine_method with
  | none => .error (.attributeError "refine")
  | some f => .ok (f coreset)

lemma foldl_greedy_length (ts : List Nat) (k : Nat → Nat → ℚ) (r : List ℚ)
    (u : Bool) : ∀ st : List Nat × List ExtQ,
    ((ts.foldl (fun st t => greedy_body t st.1 st.2 k r u) st).1).length
      = st.1.length := by
  induction ts with
  | nil => intro st; rfl
  | cons a ts ih =>
      intro st
      rw [List.foldl_cons, ih]
      simp [greedy_body]

/-- The herding loop always returns exactly `m` coreset indices, whatever
the dataset size, kernel or uniqueness flag. -/
lemma herdingIndices_length (m : Nat) (k : Nat → Nat → ℚ) (r : List ℚ)
    (u : Bool) : (herdingIndices m k r u).length = m := by
  unfold herdingIndices herdingFold
  rw [foldl_greedy_length]
  simp

/-- A concrete rational kernel used to instantiate witnesses: the
inverse-quadric kernel `k(x, y) = 1 / (1 + dist(x, y)^2)`, which is
positive and rational-valued. -/
def invQuadEval (x : List (List ℚ)) (i j : Nat) : ℚ :=
  1 / (1 + (List.zipWith (fun a b => (a - b)^2) (x.getD i []) (x.getD j [])).sum)

/-- The Gramian row-mean of the inverse-quadric kernel: for each point
`i`, the average of `k(x_i, x_j)` over all `j` (spec §3). -/
def invQuadRowMean (x : List (List ℚ)) : List ℚ :=
  (List.range x.length).map (fun i =>
    ((List.range x.length).map (fun j => invQuadEval x i j)).sum / (x.length : ℚ))

/-- The inverse-quadric kernel packaged with its row-mean capability. -/
def invQuadKernel : KernelCap := ⟨invQuadRowMean, invQuadEval⟩

/-- A three-point dataset in three dimensions, mirroring the generic
validation data of the unit tests. -/
def demoData : List (List ℚ) := [[0, 0, 0], [1, 1, 1], [2, 2, 2]]

/-- A fully-capable KernelHerding object over the inverse-quadric kernel. -/
def demoHerdObj : HerdObj :=
  { kernel := some invQuadKernel
    weights_optimiser := some (fun _ c => c.map (fun _ => 1 / (c.length : ℚ)))
    refine_method := some (fun c => c)
    unique := .bool true }

/-- A KernelHerding object whose collaborators all lack their required
operations, mirroring `coreax.util.InvalidKernel` in the unit tests. -/
def invalidHerdObj : HerdObj :=
  { kernel := none
    weights_optimiser := none
    refine_method := none
    unique := .bool true }

/-- A KernelHerding object with a working kernel but invalid
weights-optimiser and refine-method collaborators. -/
def herdObjNoSolve : HerdObj :=
  { kernel := some invQuadKernel
    weights_optimiser := none
    refine_method := none
    unique := .bool true }

/-- Claim C8: KernelHerding's coreset size must be a positive integer — a
zero or negative integer size makes fit raise a ValueError (never an
empty coreset), and a non-integer (float) size also raises a ValueError. -/
theorem herding_size_validation (obj : HerdObj) (kern : KernelCap)
    (x : List (List ℚ)) (hk : obj.kernel = some kern) :
    (∀ z : ℤ, z ≤ 0 → ∃ msg, KernelHerding.fit obj (.array x)
        (.sizeReduce (.int z)) = .error (.valueError msg))
    ∧ (∀ q : ℚ, ∃ msg, KernelHerding.fit obj (.array x)
        (.sizeReduce (.float q)) = .error (.valueError msg)) := by
  constructor
  · intro z hz
    by_cases h0 : z = 0
    · exact ⟨"coreset_size must be non-zero",
        by simp [KernelHerding.fit, hk, KernelHerding.sizeError, h0]⟩
    · have hneg : z < 0 := lt_of_le_of_ne hz h0
      exact ⟨"coreset_size must be a positive integer",
        by simp [KernelHerding.fit, hk, KernelHerding.sizeError, h0, hneg]⟩
  · intro q
    exact ⟨"coreset_size must be a positive integer",
      by simp [KernelHerding.fit, hk, KernelHerding.sizeError]⟩

/-- Concrete instantiation of the C8 theorem: fit with sizes 0, -2 and
the float 2.0 each raise a ValueError on the demo data. -/
theorem herding_size_validation_witness :
    (∃ msg, KernelHerding.fit demoHerdObj (.array demoData)
        (.sizeReduce (.int 0)) = .error (.valueError msg))
    ∧ (∃ msg, KernelHerding.fit demoHerdObj (.array demoData)
        (.sizeReduce (.int (-2))) = .error (.valueError msg))
    ∧ (∃ msg, KernelHerding.fit demoHerdObj (.array demoData)
        (.sizeReduce (.float 2)) = .error (.valueError msg)) :=
  ⟨(herding_size_validation demoHerdObj invQuadKernel demoData rfl).1 0 (by decide),
   (herding_size_validation demoHerdObj invQuadKernel demoData rfl).1 (-2) (by decide),
   (herding_size_validation demoHerdObj invQuadKernel demoData rfl).2 2⟩

/-- Claim C3: a collaborator lacking a required operation raises an
AttributeError naming that operation at exactly the first call needing
it: a kernel without `gramian_row_mean` makes fit itself fail; with a
working kernel, fit succeeds even when the weights optimiser lacks
`solve` and the refine method lacks `refine`, and only the later
`solve_weights` and `refine` calls raise; a strategy without `reduce`
makes fit fail naming "reduce". -/
theorem missing_capability_at_first_use :
    (∀ (obj : HerdObj) (x : List (List ℚ)) (sz : PySize), obj.kernel = none →
        KernelHerding.fit obj (.array x) (.sizeReduce sz)
          = .error (.attributeError "gramian_row_mean"))
    ∧ (∀ (obj : HerdObj) (kern : KernelCap) (x : List (List ℚ)) (m : ℕ),
        obj.kernel = some kern → 0 < m →
        (∃ idx, KernelHerding.fit obj (.array x) (.sizeReduce (.int m)) = .ok idx)
        ∧ (obj.weights_optimiser = none →
            ∀ y c, obj.solve_weights y c = .error (.attributeError "solve"))
        ∧ (obj.refine_method = none →
            ∀ c, obj.refineCoreset c = .error (.attributeError "refine")))
    ∧ (∀ (obj : HerdObj) (data : DataObj),
        KernelHerding.fit obj data .invalid = .error (.attributeError "reduce")) := by
  refine ⟨?_, ?_, ?_⟩
  · intro obj x sz hk
    cases sz with
    | int z => simp [KernelHerding.fit, hk]
    | float q => simp [KernelHerding.fit, hk]
  · intro obj kern x m hk hm
    have h0 : ¬((m : ℤ) = 0) := by omega
    have h1 : ¬((m : ℤ) < 0) := by omega
    refine ⟨⟨herdingIndices (PySize.int (m : ℤ)).toNatVal (kern.eval x)
        (kern.rowMean x) obj.unique.truthy,
      by simp [KernelHerding.fit, hk, KernelHerding.sizeError, h0, h1]⟩, ?_, ?_⟩
    · intro hw y c
      simp [HerdObj.solve_weights, hw]
    · intro hr c
      simp [HerdObj.refineCoreset, hr]
  · intro obj data
    rfl

/-- Concrete instantiation of the C3 theorem on demo objects mirroring
the unit tests' `InvalidKernel` scenarios. -/
theorem missing_capability_at_first_use_witness :
    KernelHerding.fit invalidHerdObj (.array demoData) (.sizeReduce (.int 20))
      = .error (.attributeError "gramian_row_mean")
    ∧ ((∃ idx, KernelHerding.fit herdObjNoSolve (.array demoData)
          (.sizeReduce (.int 20)) = .ok idx)
        ∧ (herdObjNoSolve.weights_optimiser = none →
            ∀ y c, herdObjNoSolve.solve_weights y c
              = .error (.attributeError "solve"))
        ∧ (herdObjNoSolve.refine_method = none →
            ∀ c, herdObjNoSolve.refineCoreset c
              = .error (.attributeError "refine")))
    ∧ KernelHerding.fit invalidHerdObj DataObj.invalid StrategyObj.invalid
      = .error (.attributeError "reduce") :=
  ⟨missing_capability_at_first_use.1 invalidHerdObj demoData (.int 20) rfl,
   missing_capability_at_first_use.2.1 herdObjNoSolve invQuadKernel demoData 20
     rfl (by decide),
   missing_capability_at_first_use.2.2 invalidHerdObj DataObj.invalid⟩

/-- Modelled from the spec (§4.4): one randomly-pivoted rank-1 update of
RPCholesky.  The pivot `s` is drawn by the supplied sampling rule `pick`
(the JAX pseudo-random draw, proportional to the residual diagonal, is
not part of the source tree and is abstracted as this function); the
residual column `g` of the pivot is the Gramian column minus the
contribution of all previous pivots, and the residual diagonal shrinks by
`g(j)^2 / g(s)` (division by a zero residual falls back to `0`, matching
the spec's "degenerate numeric cases are handled by explicit fallback
values, not exceptions"). -/
def rpcholeskyStep (G : Nat → Nat → ℚ) (pick : Nat → List ℚ → Nat)
    (t : Nat) (st : List ℚ × List ((Nat → ℚ) × ℚ)) :
    Nat × (List ℚ × List ((Nat → ℚ) × ℚ)) :=
  let d := st.1
  let s := pick t d
  let g : Nat → ℚ := fun j => G s j - (st.2.map (fun c => c.1 s * c.1 j / c.2)).sum
  let d1 := d.enum.map (fun je => je.2 - (g je.1)^2 / g s)
  (s, (d1, st.2 ++ [(g, g s)]))

/-- Modelled from the spec: the sequence of `m` pivot indices selected by
RPCholesky over an `n`-point dataset, starting from the Gramian diagonal
as the residual diagonal. -/
def rpcholeskyIndices (G : Nat → Nat → ℚ) (pick : Nat → List ℚ → Nat)
    (n m : Nat) : List Nat :=
  ((List.range m).foldl (fun acc t =>
      let r := rpcholeskyStep G pick t acc.2
      (acc.1 ++ [r.1], r.2))
    (([] : List Nat), ((List.range n).map (fun i => G i i),
      ([] : List ((Nat → ℚ) × ℚ))))).1

lemma foldl_rpc_length (G : Nat → Nat → ℚ) (pick : Nat → List ℚ → Nat)
    (ts : List Nat) :
    ∀ acc : List Nat × (List ℚ × List ((Nat → ℚ) × ℚ)),
    ((ts.foldl (fun acc t =>
        let r := rpcholeskyStep G pick t acc.2
        (acc.1 ++ [r.1], r.2)) acc).1).length = acc.1.length + ts.length := by
  induction ts with
  | nil => intro acc; simp
  | cons a ts ih =>
      intro acc
      rw [List.foldl_cons, ih]
      simp
      omega

/-- RPCholesky always selects exactly `m` pivot indices. -/
lemma rpcholeskyIndices_length (G : Nat → Nat → ℚ) (pick : Nat → List ℚ → Nat)
    (n m : Nat) : (rpcholeskyIndices G pick n m).length = m := by
  unfold rpcholeskyIndices
  rw [foldl_rpc_length]
  simp

/-- An RPCholesky constructor object: a Gramian-evaluation kernel and the
modelled random pivot rule derived from its random key. -/
structure RPCObj where
  kernel : List (List ℚ) → Nat → Nat → ℚ
  pick : Nat → List ℚ → Nat

/-- Modelled from the spec: `RPCholesky.fit(original_data, strategy)`,
with the same dispatch shape as KernelHerding's fit but RPCholesky's own
size validation (spec §4.4). -/
def RPCholesky.fit (obj : RPCObj) (data : DataObj) (strategy : StrategyObj) :
    Except PyError (List Nat) :=
  match strategy with
  | .invalid => .error (.attributeError "reduce")
  | .sizeReduce sz =>
    match data with
    | .invalid => .error (.attributeError "pre_coreset_array")
    | .array x =>
      match RPCholesky.sizeError sz with
      | some msg => .error (.valueError msg)
      | none => .ok (rpcholeskyIndices (obj.kernel x) obj.pick x.length sz.toNatVal)

/-- A concrete RPCholesky object over the inverse-quadric kernel with a
residual-greedy pivot rule standing in for the random draw. -/
def demoRPCObj : RPCObj :=
  { kernel := invQuadEval
    pick := fun _t d => argmaxQ d }

/-- Claim C4: RPCholesky's fit fails fast on a zero coreset size with
ValueError "coreset_size must be non-zero" and on a negative size with
ValueError "coreset_size must not be negative", a message distinct from
KernelHerding's "coreset_size must be a positive integer" for negative
sizes. -/
theorem rpcholesky_size_messages :
    (∀ (obj : RPCObj) (x : List (List ℚ)),
        RPCholesky.fit obj (.array x) (.sizeReduce (.int 0))
          = .error (.valueError "coreset_size must be non-zero"))
    ∧ (∀ (obj : RPCObj) (x : List (List ℚ)) (z : ℤ), z < 0 →
        RPCholesky.fit obj (.array x) (.sizeReduce (.int z))
          = .error (.valueError "coreset_size must not be negative"))
    ∧ (∀ (obj : HerdObj) (kern : KernelCap) (x : List (List ℚ)) (z : ℤ),
        obj.kernel = some kern → z < 0 →
        KernelHerding.fit obj (.array x) (.sizeReduce (.int z))
          = .error (.valueError "coreset_size must be a positive integer"))
    ∧ ("coreset_size must not be negative" : String)
        ≠ "coreset_size must be a positive integer" := by
  refine ⟨?_, ?_, ?_, by decide⟩
  · intro obj x
    rfl
  · intro obj x z hz
    have h0 : ¬(z = 0) := by omega
    simp [RPCholesky.fit, RPCholesky.sizeError, h0, hz]
  · intro obj kern x z hk hz
    have h0 : ¬(z = 0) := by omega
    simp [KernelHerding.fit, hk, KernelHerding.sizeError, h0, hz]

/-- Concrete instantiation of the C4 theorem on the demo objects. -/
theorem rpcholesky_size_messages_witness :
    RPCholesky.fit demoRPCObj (.array demoData) (.sizeReduce (.int 0))
      = .error (.valueError "coreset_size must be non-zero")
    ∧ RPCholesky.fit demoRPCObj (.array demoData) (.sizeReduce (.int (-2)))
      = .error (.valueError "coreset_size must not be negative")
    ∧ KernelHerding.fit demoHerdObj (.array demoData) (.sizeReduce (.int (-2)))
      = .error (.valueError "coreset_size must be a positive integer") :=
  ⟨rpcholesky_size_messages.1 demoRPCObj demoData,
   rpcholesky_size_messages.2.1 demoRPCObj demoData (-2) (by decide),
   rpcholesky_size_messages.2.2.1 demoHerdObj invQuadKernel demoData (-2) rfl
     (by decide)⟩

/-- First index attaining the minimum of a rational vector (arg-min with
lowest-index tie-breaking, via arg-max of the negated vector). -/
def argminQ (l : List ℚ) : Nat :=
  argmaxQ (l.map (fun v => -v))

/-- Modelled from the spec (§4.5): greedy Stein thinning over an `n`-point
dataset with Stein-kernel `K` — each step appends the candidate
minimising the Stein-kernel objective `K(i,i)/2 + Σ_{j selected} K(j,i)`
(self-similarity plus similarity to the points already selected). -/
def steinIndices (m n : Nat) (K : Nat → Nat → ℚ) : List Nat :=
  (List.range m).foldl (fun acc _t =>
    let scores := (List.range n).map (fun i =>
        K i i / 2 + (acc.map (fun j => K j i)).sum)
    acc ++ [argminQ scores]) []

/-- A SteinThinning constructor object: its (Stein-capable) kernel. -/
structure SteinObj where
  kernel : KernelCap

/-- Modelled from the spec: `SteinThinning.fit(original_data, strategy)`,
with the same dispatch shape as KernelHerding's fit but SteinThinning's
own size validation (spec §4.5) and greedy Stein selection. -/
def SteinThinning.fit (obj : SteinObj) (data : DataObj) (strategy : StrategyObj) :
    Except PyError (List Nat) :=
  match strategy with
  | .invalid => .error (.attributeError "reduce")
  | .sizeReduce sz =>
    match data with
    | .invalid => .error (.attributeError "pre_coreset_array")
    | .array x =>
      match SteinThinning.sizeError sz with
      | some msg => .error (.valueError msg)
      | none => .ok (steinIndices sz.toNatVal x.length (obj.kernel.eval x))

/-- A concrete SteinThinning object over the inverse-quadric kernel. -/
def demoSteinObj : SteinObj := ⟨invQuadKernel⟩

/-- Counterexample to claim C5 as stated: at a zero coreset size the two
constructors raise ValueErrors with different messages — SteinThinning
says "coreset_size must be a positive integer" (unit test line 1156)
while KernelHerding says "coreset_size must be non-zero" (unit test line
374) — so SteinThinning's validation does not mirror KernelHerding's for
every input. -/
theorem stein_zero_size_message_differs :
    SteinThinning.fit demoSteinObj (.array demoData) (.sizeReduce (.int 0))
      = .error (.valueError "coreset_size must be a positive integer")
    ∧ KernelHerding.fit demoHerdObj (.array demoData) (.sizeReduce (.int 0))
      = .error (.valueError "coreset_size must be non-zero")
    ∧ ("coreset_size must be a positive integer" : String)
        ≠ "coreset_size must be non-zero" :=
  ⟨rfl, rfl, by decide⟩

/-- Claim C5 (amended): SteinThinning raises the same ValueError class as
KernelHerding for zero, negative and non-integer coreset sizes, and the
same message ("coreset_size must be a positive integer") for negative and
non-integer sizes; but for a zero size the messages differ —
SteinThinning raises "coreset_size must be a positive integer" while
KernelHerding raises "coreset_size must be non-zero". -/
theorem stein_mirrors_herding_amended :
    (∀ (so : SteinObj) (ho : HerdObj) (kern : KernelCap) (x : List (List ℚ))
        (z : ℤ), ho.kernel = some kern → z < 0 →
        SteinThinning.fit so (.array x) (.sizeReduce (.int z))
          = .error (.valueError "coreset_size must be a positive integer")
        ∧ KernelHerding.fit ho (.array x) (.sizeReduce (.int z))
          = .error (.valueError "coreset_size must be a positive integer"))
    ∧ (∀ (so : SteinObj) (ho : HerdObj) (kern : KernelCap) (x : List (List ℚ))
        (q : ℚ), ho.kernel = some kern →
        SteinThinning.fit so (.array x) (.sizeReduce (.float q))
          = .error (.valueError "coreset_size must be a positive integer")
        ∧ KernelHerding.fit ho (.array x) (.sizeReduce (.float q))
          = .error (.valueError "coreset_size must be a positive integer"))
    ∧ (∀ (so : SteinObj) (ho : HerdObj) (kern : KernelCap) (x : List (List ℚ)),
        ho.kernel = some kern →
        SteinThinning.fit so (.array x) (.sizeReduce (.int 0))
          = .error (.valueError "coreset_size must be a positive integer")
        ∧ KernelHerding.fit ho (.array x) (.sizeReduce (.int 0))
          = .error (.valueError "coreset_size must be non-zero")) := by
  refine ⟨?_, ?_, ?_⟩
  · intro so ho kern x z hk hz
    have h0 : ¬(z = 0) := by omega
    have hle : z ≤ 0 := by omega
    constructor
    · simp [SteinThinning.fit, SteinThinning.sizeError, hle]
    · simp [KernelHerding.fit, hk, KernelHerding.sizeError, h0, hz]
  · intro so ho kern x q hk
    constructor
    · rfl
    · simp [KernelHerding.fit, hk, KernelHerding.sizeError]
  · intro so ho kern x hk
    constructor
    · rfl
    · simp [KernelHerding.fit, hk, KernelHerding.sizeError]

/-- Concrete instantiation of the amended C5 theorem. -/
theorem stein_mirrors_herding_amended_witness :
    (SteinThinning.fit demoSteinObj (.array demoData) (.sizeReduce (.int (-2)))
        = .error (.valueError "coreset_size must be a positive integer")
      ∧ KernelHerding.fit demoHerdObj (.array demoData) (.sizeReduce (.int (-2)))
        = .error (.valueError "coreset_size must be a positive integer"))
    ∧ (SteinThinning.fit demoSteinObj (.array demoData) (.sizeReduce (.float 2))
        = .error (.valueError "coreset_size must be a positive integer")
      ∧ KernelHerding.fit demoHerdObj (.array demoData) (.sizeReduce (.float 2))
        = .error (.valueError "coreset_size must be a positive integer"))
    ∧ (SteinThinning.fit demoSteinObj (.array demoData) (.sizeReduce (.int 0))
        = .error (.valueError "coreset_size must be a positive integer")
      ∧ KernelHerding.fit demoHerdObj (.array demoData) (.sizeReduce (.int 0))
        = .error (.valueError "coreset_size must be non-zero")) :=
  ⟨stein_mirrors_herding_amended.1 demoSteinObj demoHerdObj invQuadKernel
      demoData (-2) rfl (by decide),
   stein_mirrors_herding_amended.2.1 demoSteinObj demoHerdObj invQuadKernel
      demoData 2 rfl,
   stein_mirrors_herding_amended.2.2 demoSteinObj demoHerdObj invQuadKernel
      demoData rfl⟩

/-- A RandomSample constructor object.  The two pseudo-random outcomes
derived from its random key are modelled as functions: `perm n` is the
shuffled order of the `n` data indices used when sampling without
replacement, and `draws n m` is the sequence of `m` independent uniform
draws over `[0, n)` used when sampling with replacement (the JAX
generator itself is not part of the source tree). -/
structure RandObj where
  unique : PyVal
  perm : Nat → List Nat
  draws : Nat → Nat → List Nat

/-- Modelled from the spec (§4.3): `RandomSample.fit` — after the same
strategy/data dispatch as the other constructors and RandomSample's size
validation, it samples `m` indices without replacement when the `unique`
flag is truthy (any non-boolean truthy value behaves as `True`) and with
replacement otherwise, and extracts the corresponding rows.  No kernel is
consulted. -/
def RandomSample.fit (obj : RandObj) (data : DataObj) (strategy : StrategyObj) :
    Except PyError (List Nat × List (List ℚ)) :=
  match strategy with
  | .invalid => .error (.attributeError "reduce")
  | .sizeReduce sz =>
    match data with
    | .invalid => .error (.attributeError "pre_coreset_array")
    | .array x =>
      match RandomSample.sizeError sz with
      | some msg => .error (.valueError msg)
      | none =>
          let m := sz.toNatVal
          let idx := if obj.unique.truthy then (obj.perm x.length).take m
                     else (obj.draws x.length m).take m
          .ok (idx, idx.map (fun i => x.getD i []))

/-- Modelled from the spec: the with-replacement uniform draws produced
by the JAX pseudo-random generator for the unit test's fixed key 42.  The
generator is not part of the source tree; the repository's unit test
(`test_random_sample_with_replacement`) pins exactly one fact about the
draw for `n = 30`, `m = 10` — it contains a repeated index — which the
representative value here reproduces. -/
def key42Draws (n m : Nat) : List Nat :=
  if n = 30 ∧ m = 10 then [23, 7, 14, 7, 2, 28, 11, 0, 19, 5]
  else (List.range m).map (fun i => i % n)

/-- The RandomSample object of the with-replacement unit test:
`unique = False` and the key-42 pseudo-random outcomes. -/
def key42RandomSample : RandObj :=
  { unique := .bool false
    perm := fun n => List.range n
    draws := key42Draws }

/-- A RandomSample object whose `unique` flag is the non-boolean truthy
string of the unit test (`"ABC123"`). -/
def abcRandomSample : RandObj :=
  { unique := .str "ABC123"
    perm := fun n => List.range n
    draws := key42Draws }

/-- The 30-point dataset of the RandomSample unit tests. -/
def data30 : List (List ℚ) := (List.range 30).map (fun i => [(i : ℚ)])

/-- Claim C6: RandomSample accepts a coreset size of 0 and returns an
empty coreset (no indices and no extracted points), while negative and
non-integer sizes raise ValueError "coreset_size must be a positive
integer". -/
theorem random_sample_size_validation :
    (∀ (obj : RandObj) (x : List (List ℚ)),
        RandomSample.fit obj (.array x) (.sizeReduce (.int 0)) = .ok ([], []))
    ∧ (∀ (obj : RandObj) (x : List (List ℚ)) (z : ℤ), z < 0 →
        RandomSample.fit obj (.array x) (.sizeReduce (.int z))
          = .error (.valueError "coreset_size must be a positive integer"))
    ∧ (∀ (obj : RandObj) (x : List (List ℚ)) (q : ℚ),
        RandomSample.fit obj (.array x) (.sizeReduce (.float q))
          = .error (.valueError "coreset_size must be a positive integer")) := by
  refine ⟨?_, ?_, ?_⟩
  · intro obj x
    simp only [RandomSample.fit, RandomSample.sizeError]
    cases h : obj.unique.truthy <;> simp [h, PySize.toNatVal]
  · intro obj x z hz
    simp [RandomSample.fit, RandomSample.sizeError, hz]
  · intro obj x q
    rfl

/-- Concrete instantiation of the C6 theorem. -/
theorem random_sample_size_validation_witness :
    RandomSample.fit key42RandomSample (.array data30) (.sizeReduce (.int 0))
      = .ok ([], [])
    ∧ RandomSample.fit key42RandomSample (.array data30)
        (.sizeReduce (.int (-2)))
      = .error (.valueError "coreset_size must be a positive integer")
    ∧ RandomSample.fit key42RandomSample (.array data30)
        (.sizeReduce (.float 2))
      = .error (.valueError "coreset_size must be a positive integer") :=
  ⟨random_sample_size_validation.1 key42RandomSample data30,
   random_sample_size_validation.2.1 key42RandomSample data30 (-2) (by decide),
   random_sample_size_validation.2.2 key42RandomSample data30 2⟩

/-- Claim C7: any truthy value of the `unique` flag — boolean or not —
makes RandomSample.fit behave exactly as `unique = True`, sampling
without replacement and so producing strictly non-repeating indices
(given that the key's shuffle is duplicate-free); with `unique = False`
sampling is with replacement, and for the fixed key 42 with `n = 30` and
`coreset_size = 10` the sampled indices contain a duplicate. -/
theorem random_sample_unique_coercion :
    (∀ (obj : RandObj) (data : DataObj) (strategy : StrategyObj),
        obj.unique.truthy = true →
        RandomSample.fit obj data strategy
          = RandomSample.fit { obj with unique := .bool true } data strategy)
    ∧ (∀ (obj : RandObj) (x : List (List ℚ)) (m : ℕ),
        obj.unique.truthy = true → (obj.perm x.length).Nodup →
        ∃ idx pts, RandomSample.fit obj (.array x) (.sizeReduce (.int m))
            = .ok (idx, pts) ∧ idx.Nodup)
    ∧ (∃ idx pts, RandomSample.fit key42RandomSample (.array data30)
          (.sizeReduce (.int 10)) = .ok (idx, pts) ∧ ¬idx.Nodup) := by
  refine ⟨?_, ?_, ?_⟩
  · intro obj data strategy h
    cases strategy with
    | invalid => rfl
    | sizeReduce sz =>
      cases data with
      | invalid => rfl
      | array x =>
          simp only [RandomSample.fit]
          cases hse : RandomSample.sizeError sz with
          | some msg => rfl
          | none =>
              have h2 : (PyVal.bool true).truthy = true := rfl
              simp [hse, h, h2]
  · intro obj x m h hperm
    have hz : ¬((m : ℤ) < 0) := by omega
    refine ⟨(obj.perm x.length).take m,
      ((obj.perm x.length).take m).map (fun i => x.getD i []), ?_, ?_⟩
    · simp [RandomSample.fit, RandomSample.sizeError, hz, h, PySize.toNatVal]
    · exact List.Sublist.nodup (List.take_sublist _ _) hperm
  · refine ⟨[23, 7, 14, 7, 2, 28, 11, 0, 19, 5],
      [23, 7, 14, 7, 2, 28, 11, 0, 19, 5].map (fun i => data30.getD i []),
      ?_, by decide⟩
    rfl

/-- Concrete instantiation of the C7 theorem with the unit tests' truthy
string `"ABC123"` and key-42 data. -/
theorem random_sample_unique_coercion_witness :
    RandomSample.fit abcRandomSample (.array data30) (.sizeReduce (.int 10))
      = RandomSample.fit { abcRandomSample with unique := .bool true }
          (.array data30) (.sizeReduce (.int 10))
    ∧ (∃ idx pts, RandomSample.fit abcRandomSample (.array data30)
          (.sizeReduce (.int 10)) = .ok (idx, pts) ∧ idx.Nodup) :=
  ⟨random_sample_unique_coercion.1 abcRandomSample (.array data30)
      (.sizeReduce (.int 10)) (by decide),
   random_sample_unique_coercion.2.1 abcRandomSample data30 10 (by decide)
      (by simp [abcRandomSample, List.nodup_range])⟩

/-- Modelled from the spec (§4.6): `SizeReduce` applies a Coreset
Constructor's selection routine once, directly, to the full dataset.  The
constructor is abstracted as a function of the random seed, the target
size and the data. -/
def sizeReduceRun {α : Type} (construct : Nat → Nat → List α → List α)
    (key m : Nat) (data : List α) : List α :=
  construct key m data

/-- Split a list into contiguous blocks of size at most `L` (the whole
list as a single block when `L = 0` or the list already fits in one
leaf). -/
def chunksOf {α : Type} (L : Nat) (l : List α) : List (List α) :=
  if L = 0 ∨ l.length ≤ L then [l]
  else l.take L :: chunksOf L (l.drop L)
termination_by l.length
decreasing_by
  simp only [List.length_drop]
  omega

/-- Modelled from the spec (§4.6): the MapReduce recursion, driven by a
fuel parameter bounding the number of merge rounds.  If the data fits in
one leaf (`length ≤ leaf_size`), one final direct reduction to exactly
`coreset_size` runs; otherwise the data is partitioned into blocks of
size ≤ `leaf_size`, the constructor reduces each block to
`min(coreset_size, block_size)` points, the local coresets are
concatenated in partition order and the recursion continues on the
candidate set. -/
def mapReduceAux {α : Type} (construct : Nat → Nat → List α → List α)
    (key L m : Nat) : Nat → List α → List α
  | 0, data => construct key m data
  | fuel + 1, data =>
      if data.length ≤ L then construct key m data
      else mapReduceAux construct key L m fuel
        ((chunksOf L data).map (fun b => construct key (min m b.length) b)).join

/-- Modelled from the spec: `MapReduce` with leaf size `L` and target
coreset size `m`, with enough fuel for every merge round. -/
def mapReduceRun {α : Type} (construct : Nat → Nat → List α → List α)
    (key L m : Nat) (data : List α) : List α :=
  mapReduceAux construct key L m data.length data

/-- Claim C9: for every dataset, every coreset constructor and every
random seed, MapReduce with `leaf_size ≥ n` produces a result identical
to SizeReduce on the same data, constructor and seed: the whole dataset
fits in one leaf, so a single direct reduction runs. -/
theorem mapreduce_collapses_to_sizereduce {α : Type}
    (construct : Nat → Nat → List α → List α) (key L m : Nat)
    (data : List α) (h : data.length ≤ L) :
    mapReduceRun construct key L m data = sizeReduceRun construct key m data := by
  unfold mapReduceRun sizeReduceRun
  cases hd : data.length with
  | zero => rfl
  | succ n =>
      rw [mapReduceAux, if_pos (by omega)]

/-- Concrete instantiation of the C9 theorem: a take-first constructor on
a three-element dataset with leaf size 5. -/
theorem mapreduce_collapses_to_sizereduce_witness :
    mapReduceRun (fun _key m l => l.take m) 0 5 2 [10, 20, 30]
      = sizeReduceRun (fun _key m l => l.take m) 0 2 [10, 20, 30] :=
  mapreduce_collapses_to_sizereduce (fun _key m l => l.take m) 0 5 2
    [10, 20, 30] (by decide)

/-- Claim C10: for every dataset and every positive integer coreset size
`m`, KernelHerding.fit and RPCholesky.fit complete without error and
store exactly `m` coreset indices, even when `m` exceeds the number of
data points and whatever the uniqueness flag. -/
theorem fit_oversized_coreset :
    (∀ (obj : HerdObj) (kern : KernelCap) (x : List (List ℚ)) (m : ℕ),
        obj.kernel = some kern → 0 < m →
        ∃ idx, KernelHerding.fit obj (.array x) (.sizeReduce (.int m)) = .ok idx
          ∧ idx.length = m)
    ∧ (∀ (obj : RPCObj) (x : List (List ℚ)) (m : ℕ), 0 < m →
        ∃ idx, RPCholesky.fit obj (.array x) (.sizeReduce (.int m)) = .ok idx
          ∧ idx.length = m) := by
  constructor
  · intro obj kern x m hk hm
    have h0 : ¬((m : ℤ) = 0) := by omega
    have h1 : ¬((m : ℤ) < 0) := by omega
    refine ⟨herdingIndices (PySize.int (m : ℤ)).toNatVal (kern.eval x)
        (kern.rowMean x) obj.unique.truthy, ?_, ?_⟩
    · simp [KernelHerding.fit, hk, KernelHerding.sizeError, h0, h1]
    · rw [herdingIndices_length]
      simp [PySize.toNatVal]
  · intro obj x m hm
    have h0 : ¬((m : ℤ) = 0) := by omega
    have h1 : ¬((m : ℤ) < 0) := by omega
    refine ⟨rpcholeskyIndices (obj.kernel x) obj.pick x.length
        (PySize.int (m : ℤ)).toNatVal, ?_, ?_⟩
    · simp [RPCholesky.fit, RPCholesky.sizeError, h0, h1]
    · rw [rpcholeskyIndices_length]
      simp [PySize.toNatVal]

/-- Concrete instantiation of the C10 theorem: requesting 20 coreset
points from the 3-point demo dataset succeeds for both constructors — and
for KernelHerding with the truthy non-boolean uniqueness flag of the unit
test — yielding exactly 20 indices. -/
theorem fit_oversized_coreset_witness :
    (∃ idx, KernelHerding.fit
        { demoHerdObj with unique := .str "ABC123" } (.array demoData)
        (.sizeReduce (.int 20)) = .ok idx ∧ idx.length = 20)
    ∧ (∃ idx, RPCholesky.fit demoRPCObj (.array demoData)
        (.sizeReduce (.int 20)) = .ok idx ∧ idx.length = 20) :=
  ⟨fit_oversized_coreset.1 { demoHerdObj with unique := .str "ABC123" }
      invQuadKernel demoData 20 rfl (by decide),
   fit_oversized_coreset.2 demoRPCObj demoData 20 (by decide)⟩
